import Mathlib

/-
Verification development for the stillcaster guided-meditation application.

The sources verified here are:
- the prompt template manager (placeholder substitution, word-budget
  calculation, fallback template),
- the voice-synthesis client and its factory (voice table, fallback
  selection),
- the session player (phase state machine, lead-in scheduling,
  pause/resume/stop, one-second tick timer with final fade).

Strings are embedded as lists of characters; JavaScript
String.prototype.replace with a global literal pattern is embedded as a
left-to-right non-overlapping scan (the replacement string is assumed free
of dollar escape sequences, which the theorems enforce through their
hypotheses).  Fractional quantities (audio durations, volumes) are embedded
as rationals; machine floating point is not modelled.
-/

namespace Stillcaster

/-- Convert a string literal to the character-list representation used
throughout this development. -/
def str (s : String) : List Char := s.toList

/-- Test whether the first list is an initial segment of the second. -/
def leadsWith : List Char → List Char → Bool
  | [], _ => true
  | _ :: _, [] => false
  | a :: p, b :: s => a == b && leadsWith p s

/-- Test whether the pattern occurs as a contiguous segment of the string. -/
def occurs (p : List Char) : List Char → Bool
  | [] => leadsWith p []
  | c :: s => leadsWith p (c :: s) || occurs p s

/-- Embedding of JavaScript String.replace with a global (g-flagged) literal
pattern: scan left to right; at each position, if the pattern starts here,
emit the replacement and continue after the matched text, otherwise keep the
character.  Matches are non-overlapping and replacements are not rescanned,
as in JavaScript. -/
def replaceAll (p r : List Char) (s : List Char) : List Char :=
  match s with
  | [] => []
  | c :: s' =>
    if leadsWith p (c :: s') && !p.isEmpty then
      r ++ replaceAll p r (s'.drop (p.length - 1))
    else
      c :: replaceAll p r s'
termination_by s.length
decreasing_by
  · simp only [List.length_drop, List.length_cons]
    omega
  · simp only [List.length_cons]
    omega

/-- A character list containing no opening brace: placeholder patterns all
begin with two opening braces, so none can start inside such a list. -/
def noBrace (s : List Char) : Prop := '\x7b' ∉ s

/-- A character list suitable as a replacement value for the embedded
String.replace: no opening brace (so it cannot create a new placeholder
occurrence) and no dollar sign (so the JavaScript replacement-string escape
sequences do not apply and literal insertion is faithful). -/
def plainVal (s : List Char) : Prop := noBrace s ∧ '$' ∉ s

instance (s : List Char) : Decidable (noBrace s) :=
  inferInstanceAs (Decidable ('\x7b' ∉ s))

instance (s : List Char) : Decidable (plainVal s) :=
  inferInstanceAs (Decidable (_ ∧ _))

theorem leadsWith_self_append (p y : List Char) : leadsWith p (p ++ y) = true := by
  induction p with
  | nil => rfl
  | cons a p ih => simp [leadsWith, ih]

theorem leadsWith_head_ne {a c : Char} (p s : List Char) (h : a ≠ c) :
    leadsWith (a :: p) (c :: s) = false := by
  have hb : (a == c) = false := beq_eq_false_iff_ne.mpr h
  simp [leadsWith, hb]

theorem replaceAll_nil (p r : List Char) : replaceAll p r [] = [] := by
  simp [replaceAll]

theorem replaceAll_cons_neg (p r : List Char) (c : Char) (s : List Char)
    (h : leadsWith p (c :: s) = false) :
    replaceAll p r (c :: s) = c :: replaceAll p r s := by
  rw [replaceAll]
  simp [h]

theorem replaceAll_cons_pos (p r : List Char) (c : Char) (s : List Char)
    (hp : p ≠ []) (h : leadsWith p (c :: s) = true) :
    replaceAll p r (c :: s) = r ++ replaceAll p r (s.drop (p.length - 1)) := by
  rw [replaceAll]
  simp [h, hp]

theorem occurs_cons (p : List Char) (c : Char) (s : List Char) :
    occurs p (c :: s) = (leadsWith p (c :: s) || occurs p s) := rfl

/-- A pattern that occurs nowhere in the string is never replaced: the
substitution leaves the string unchanged. -/
theorem replaceAll_of_not_occurs (p r s : List Char) (h : occurs p s = false) :
    replaceAll p r s = s := by
  induction s with
  | nil => exact replaceAll_nil p r
  | cons c s ih =>
    rw [occurs_cons, Bool.or_eq_false_iff] at h
    rw [replaceAll_cons_neg p r c s h.1, ih h.2]

/-- Scanning past a brace-free part: a pattern beginning with an opening
brace cannot start anywhere inside a brace-free part, so substitution maps
over the concatenation pointwise. -/
theorem replaceAll_append_noBrace (p' r x y : List Char) (hx : noBrace x) :
    replaceAll ('\x7b' :: p') r (x ++ y) = x ++ replaceAll ('\x7b' :: p') r y := by
  induction x with
  | nil => rfl
  | cons c x ih =>
    have hc : ('\x7b' : Char) ≠ c := by
      intro hcc
      exact hx (by simp [hcc.symm])
    have hx' : noBrace x := fun hm => hx (List.mem_cons_of_mem c hm)
    rw [List.cons_append, replaceAll_cons_neg _ _ _ _ (leadsWith_head_ne _ _ hc), ih hx']
    rfl

/-- Substitution fires on an explicit occurrence of the pattern: the text
before the occurrence is kept, the occurrence is replaced, and scanning
resumes after it. -/
theorem replaceAll_fires (p' r x y : List Char) (hx : noBrace x) :
    replaceAll ('\x7b' :: p') r (x ++ (('\x7b' :: p') ++ y)) =
      x ++ (r ++ replaceAll ('\x7b' :: p') r y) := by
  rw [replaceAll_append_noBrace p' r x _ hx]
  congr 1
  have h1 : leadsWith ('\x7b' :: p') ('\x7b' :: (p' ++ y)) = true := by
    simpa using leadsWith_self_append ('\x7b' :: p') y
  rw [List.cons_append, replaceAll_cons_pos _ _ _ _ (by simp) h1]
  congr 1
  simp

/-- A pattern beginning with an opening brace does not occur in a
concatenation whose left part is brace-free and whose right part avoids the
pattern. -/
theorem occurs_append_noBrace (p' x y : List Char) (hx : noBrace x)
    (hy : occurs ('\x7b' :: p') y = false) :
    occurs ('\x7b' :: p') (x ++ y) = false := by
  induction x with
  | nil => exact hy
  | cons c x ih =>
    have hc : ('\x7b' : Char) ≠ c := by
      intro hcc
      exact hx (by simp [hcc.symm])
    have hx' : noBrace x := fun hm => hx (List.mem_cons_of_mem c hm)
    rw [List.cons_append, occurs_cons, leadsWith_head_ne _ _ hc, ih hx', Bool.or_self]

/-- Pointwise disagreement witness: the two lists differ at some position
reached before either list ends. -/
def mismatches : List Char → List Char → Bool
  | [], _ => false
  | _, [] => false
  | a :: p, b :: q => a != b || mismatches p q

/-- The pattern mismatches every nonempty suffix of the string before the
suffix runs out, so no occurrence of the pattern can start inside the
string, whatever follows it. -/
def passes (p : List Char) : List Char → Bool
  | [] => true
  | c :: t => mismatches p (c :: t) && passes p t

theorem leadsWith_of_mismatches (p q y : List Char) (h : mismatches p q = true) :
    leadsWith p (q ++ y) = false := by
  induction p generalizing q with
  | nil => cases q <;> simp [mismatches] at h
  | cons a p ih =>
    cases q with
    | nil => simp [mismatches] at h
    | cons b q =>
      simp only [mismatches, Bool.or_eq_true, bne_iff_ne] at h
      rcases h with h | h
      · exact leadsWith_head_ne _ _ h
      · simp [List.cons_append, leadsWith, ih q h]

theorem occurs_append_passes (p q y : List Char) (hq : passes p q = true)
    (hy : occurs p y = false) : occurs p (q ++ y) = false := by
  induction q with
  | nil => exact hy
  | cons c t ih =>
    simp only [passes, Bool.and_eq_true] at hq
    have h1 := leadsWith_of_mismatches p (c :: t) y hq.1
    rw [List.cons_append] at h1
    rw [List.cons_append, occurs_cons, h1, ih hq.2, Bool.or_self]

theorem replaceAll_map_noBrace (p r x y : List Char) (hp : p.head? = some '\x7b')
    (hx : noBrace x) : replaceAll p r (x ++ y) = x ++ replaceAll p r y := by
  cases p with
  | nil => simp at hp
  | cons c p' =>
    obtain rfl : c = '\x7b' := by simpa using hp
    exact replaceAll_append_noBrace p' r x y hx

theorem replaceAll_seg (p r x y : List Char) (hp : p.head? = some '\x7b')
    (hx : noBrace x) : replaceAll p r (x ++ (p ++ y)) = x ++ (r ++ replaceAll p r y) := by
  cases p with
  | nil => simp at hp
  | cons c p' =>
    obtain rfl : c = '\x7b' := by simpa using hp
    exact replaceAll_fires p' r x y hx

theorem replaceAll_self_append (p r y : List Char) (hp : p.head? = some '\x7b') :
    replaceAll p r (p ++ y) = r ++ replaceAll p r y := by
  have h := replaceAll_seg p r [] y hp (by simp [noBrace])
  simpa using h

theorem occurs_seg_noBrace (p x y : List Char) (hp : p.head? = some '\x7b')
    (hx : noBrace x) (hy : occurs p y = false) : occurs p (x ++ y) = false := by
  cases p with
  | nil => simp at hp
  | cons c p' =>
    obtain rfl : c = '\x7b' := by simpa using hp
    exact occurs_append_noBrace p' x y hx hy

theorem noBrace_append (x y : List Char) (hx : noBrace x) (hy : noBrace y) :
    noBrace (x ++ y) := by
  intro h
  rcases List.mem_append.mp h with h | h
  · exact hx h
  · exact hy h

/-! ### Prompt template manager (PromptTemplateManager, src/unnamed/part_000)

The template placeholders, the variable record, the substitution routine
generatePrompt, the word-budget calculation calculateMaxWordCount, the
built-in fallback template and the template loader are embedded below.
Braces in string literals are written with hexadecimal escapes. -/

/-- Named placeholder as it appears literally in the template text. -/
def placeholder (name : String) : List Char := str ("\x7b\x7b" ++ name ++ "\x7d\x7d")

def phWisdomSourceName : List Char := placeholder "Wisdom_Source_Name"

def phWisdomSnippet : List Char := placeholder "Wisdom_Snippet"

def phUserPrimer : List Char := placeholder "User_Primer"

def phUserGoal : List Char := placeholder "User_Goal"

def phUserFeelingsList : List Char := placeholder "User_Feelings_List"

def phMaxWordCount : List Char := placeholder "Max_Word_Count"

/-- Structure PromptVariables from the source; the fields keep the
source names.  Strings are character lists; the missing-value case for the
primer and the feelings list is the empty string, which is falsy in
JavaScript. -/
structure PromptVariables where
  Wisdom_Source_Name : List Char
  Wisdom_Snippet : List Char
  User_Primer : List Char
  User_Goal : List Char
  User_Feelings_List : List Char
  Max_Word_Count : Nat

/-- Embedding of the JavaScript expression v || d for string v: the empty
string is falsy, any other string is truthy. -/
def jsOrElse (v d : List Char) : List Char := if v = [] then d else v

/-- Default sentence substituted when the user primer is missing. -/
def primerDefault : List Char := str "No specific primer provided"

/-- Default sentence substituted when the feelings list is missing. -/
def feelingsDefault : List Char := str "None specified"

/-- Decimal rendering of the word count, as produced by toString. -/
def natChars (n : Nat) : List Char := str (toString n)

/-- Embedding of PromptTemplateManager.generatePrompt: six global
replacements applied in source order, with the defaults for a missing
primer or feelings list. -/
def generatePrompt (template : List Char) (v : PromptVariables) : List Char :=
  let p1 := replaceAll phWisdomSourceName v.Wisdom_Source_Name template
  let p2 := replaceAll phWisdomSnippet v.Wisdom_Snippet p1
  let p3 := replaceAll phUserPrimer (jsOrElse v.User_Primer primerDefault) p2
  let p4 := replaceAll phUserGoal v.User_Goal p3
  let p5 := replaceAll phUserFeelingsList (jsOrElse v.User_Feelings_List feelingsDefault) p4
  replaceAll phMaxWordCount (natChars v.Max_Word_Count) p5

/-- Embedding of PromptTemplateManager.calculateMaxWordCount: available
minutes are the requested duration minus the 10-second voice start delay
(10/60 minutes) and the 0.17-minute outro; the word count is the floor of
available minutes times 75 words per minute, clamped from below by 50. -/
def calculateMaxWordCount (durationMinutes : ℚ) : ℤ :=
  let voiceStartDelay : ℚ := 10 / 60
  let availableMinutes : ℚ := durationMinutes - voiceStartDelay - 17 / 100
  let baseWordsPerMinute : ℚ := 75
  let wordsPerMinute : ℚ := baseWordsPerMinute
  let wordCount : ℤ := ⌊availableMinutes * wordsPerMinute⌋
  max 50 wordCount

/-- Built-in fallback template returned by
PromptTemplateManager.getFallbackTemplate when the template file cannot be
loaded.  The text is the source literal, with braces and apostrophes written
as hexadecimal escapes. -/
def getFallbackTemplate : List Char := str
  ("\nYou are a master spiritual guide and meditation scriptwriter. Create a beautiful, flowing guided meditation script based on the following inputs:\n\n**Wisdom Source:** \x7b\x7bWisdom_Source_Name\x7d\x7d\n**Core Concept:** \x7b\x7bWisdom_Snippet\x7d\x7d\n**User\x27s Primer:** \x7b\x7bUser_Primer\x7d\x7d\n**Primary Goal:** \x7b\x7bUser_Goal\x7d\x7d\n**Feelings to Transform:** \x7b\x7bUser_Feelings_List\x7d\x7d\n\n**Requirements:**\n- Maximum \x7b\x7bMax_Word_Count\x7d\x7d words\n- 100% positive and empowering language\n- Present tense, second person (\"You are...\")\n- Include simple audio cues like [Pause] sparingly\n- Structure: 15% induction, 60% core message, 25% integration\n- Start with a beautiful title for the meditation\n\nCreate the complete meditation script now.\n    ")

/-- Start marker searched for in the master template file. -/
def startMarker : List Char := str "**[START OF PROMPT]**"

/-- End marker searched for in the master template file. -/
def endMarker : List Char := str "**[END OF PROMPT]**"

/-- Index of the first occurrence of the pattern in the string, when there
is one: the embedding of String.indexOf, with none standing for -1. -/
def firstMatchPos (p : List Char) : List Char → Option Nat
  | [] => if leadsWith p [] then some 0 else none
  | c :: s =>
    if leadsWith p (c :: s) then some 0
    else (firstMatchPos p s).map (fun n => n + 1)

/-- Embedding of JavaScript String.substring, which swaps its arguments
when the start exceeds the end. -/
def jsSubstring (s : List Char) (a b : Nat) : List Char :=
  (s.drop (min a b)).take (max a b - min a b)

/-- Embedding of String.trim: strip whitespace from both ends. -/
def trimChars (s : List Char) : List Char :=
  ((s.dropWhile Char.isWhitespace).reverse.dropWhile Char.isWhitespace).reverse

/-- Embedding of PromptTemplateManager.loadTemplate.  The file read is
modelled by an optional file content: none models a failed read (the thrown
error is caught and the fallback template returned).  When the file is
present, the prompt is extracted between the start and end markers; a
missing marker raises, which the catch again turns into the fallback. -/
def loadTemplate (resource : Option (List Char)) : List Char :=
  match resource with
  | none => getFallbackTemplate
  | some template =>
    match firstMatchPos startMarker template, firstMatchPos endMarker template with
    | some startIndex, some endIndex =>
      trimChars (jsSubstring template (startIndex + startMarker.length) endIndex)
    | some _, none => getFallbackTemplate
    | none, _ => getFallbackTemplate

/-- C7: if the backing template resource cannot be loaded — the read fails
outright, or either prompt marker is absent — template loading returns the
fixed built-in fallback template instead of raising, so the caller of
prompt generation always receives a string. -/
theorem loadTemplate_fallback :
    loadTemplate none = getFallbackTemplate ∧
    ∀ t : List Char,
      (firstMatchPos startMarker t = none ∨ firstMatchPos endMarker t = none) →
      loadTemplate (some t) = getFallbackTemplate := by
  refine ⟨rfl, ?_⟩
  intro t h
  rcases hs : firstMatchPos startMarker t with _ | s1
  · simp [loadTemplate, hs]
  · rcases he : firstMatchPos endMarker t with _ | e1
    · simp [loadTemplate, hs, he]
    · exfalso
      rcases h with h | h
      · rw [hs] at h
        exact Option.noConfusion h
      · rw [he] at h
        exact Option.noConfusion h

/-- Witness for C7 at the empty file content, where neither marker occurs. -/
theorem loadTemplate_fallback_witness :
    (firstMatchPos startMarker [] = none ∨ firstMatchPos endMarker [] = none) ∧
      loadTemplate (some []) = getFallbackTemplate :=
  ⟨Or.inl (by decide), loadTemplate_fallback.2 [] (Or.inl (by decide))⟩

/-- C5 counterexample: at a requested duration of 1 minute — which exceeds
the lead-in plus fade-out allowance of 10/60 + 0.17 minutes — the word
budget is the 50-word floor clamp, not the claimed
floor((duration - leadIn - fadeOut) * wpm) = 49. -/
theorem calculateMaxWordCount_cex :
    (10 / 60 + 17 / 100 : ℚ) < 1 ∧
    ⌊((1 : ℚ) - 10 / 60 - 17 / 100) * 75⌋ = 49 ∧
    calculateMaxWordCount 1 = 50 ∧
    calculateMaxWordCount 1 ≠ ⌊((1 : ℚ) - 10 / 60 - 17 / 100) * 75⌋ := by
  have hf : ⌊((1 : ℚ) - 10 / 60 - 17 / 100) * 75⌋ = 49 := by norm_num
  have hc : calculateMaxWordCount 1 = 50 := by
    simp only [calculateMaxWordCount, hf]
    norm_num
  exact ⟨by norm_num, hf, hc, by rw [hc, hf]; decide⟩

/-- C5 amended: the word budget is the floor clamp of the linear formula,
max(50, floor((duration - 10/60 - 0.17) * 75)); it therefore equals the
claimed floor exactly when that floor is at least 50, and for every
requested duration (not only nonnegative ones) the budget is at least 50
and never negative. -/
theorem calculateMaxWordCount_amended :
    (∀ d : ℚ, 50 ≤ ⌊(d - 10 / 60 - 17 / 100) * 75⌋ →
      calculateMaxWordCount d = ⌊(d - 10 / 60 - 17 / 100) * 75⌋) ∧
    (∀ d : ℚ, calculateMaxWordCount d = max 50 ⌊(d - 10 / 60 - 17 / 100) * 75⌋) ∧
    (∀ d : ℚ, 50 ≤ calculateMaxWordCount d) ∧
    (∀ d : ℚ, 0 ≤ calculateMaxWordCount d) := by
  refine ⟨fun d h => ?_, fun d => rfl, fun d => le_max_left _ _,
    fun d => le_trans (by norm_num) (le_max_left _ _)⟩
  simp only [calculateMaxWordCount]
  exact max_eq_right h

/-- Witness for C5 at a requested duration of 3 minutes, whose linear word
budget 199 is above the 50-word floor. -/
theorem calculateMaxWordCount_amended_witness :
    50 ≤ ⌊((3 : ℚ) - 10 / 60 - 17 / 100) * 75⌋ ∧
      calculateMaxWordCount 3 = ⌊((3 : ℚ) - 10 / 60 - 17 / 100) * 75⌋ :=
  ⟨by norm_num, calculateMaxWordCount_amended.1 3 (by norm_num)⟩

theorem occurs_of_noBrace (p s : List Char) (hp : p.head? = some '\x7b')
    (hs : noBrace s) : occurs p s = false := by
  cases p with
  | nil => simp at hp
  | cons c p' =>
    obtain rfl : c = '\x7b' := by simpa using hp
    have h := occurs_seg_noBrace ('\x7b' :: p') s [] rfl hs rfl
    simpa using h

theorem replaceAll_self (p r : List Char) (hp : p.head? = some '\x7b') :
    replaceAll p r p = r := by
  have h := replaceAll_self_append p r [] hp
  simpa [replaceAll_nil] using h

/-- Placeholder not known to generatePrompt, used to check that unknown
placeholders are left untouched. -/
def unknownPh : List Char := placeholder "Unknown_Var"

/-- C6: generatePrompt replaces every occurrence of each known placeholder
(demonstrated with two occurrences of the goal placeholder, and with all
six known placeholders in one template), leaves an unknown placeholder
untouched, and substitutes the fixed default sentences when the user primer
or the feelings list is the (falsy) empty string.  The surrounding template
text is assumed free of opening braces and the replacement values free of
braces and dollar signs, the conditions under which the literal-replacement
embedding matches JavaScript. -/
theorem generatePrompt_substitution
    (a b c : List Char) (v : PromptVariables)
    (ha : noBrace a) (hb : noBrace b) (hc : noBrace c)
    (hws : plainVal v.Wisdom_Source_Name) (hsn : plainVal v.Wisdom_Snippet)
    (hpr : plainVal v.User_Primer) (hgl : plainVal v.User_Goal)
    (hfl : plainVal v.User_Feelings_List) :
    generatePrompt (a ++ (phUserGoal ++ (b ++ (phUserGoal ++ (c ++ unknownPh))))) v
      = a ++ (v.User_Goal ++ (b ++ (v.User_Goal ++ (c ++ unknownPh)))) ∧
    generatePrompt (a ++ (phUserPrimer ++ (b ++ (phUserFeelingsList ++ c))))
        { v with User_Primer := [], User_Feelings_List := [] }
      = a ++ (primerDefault ++ (b ++ (feelingsDefault ++ c))) ∧
    (v.User_Primer ≠ [] → v.User_Feelings_List ≠ [] →
      generatePrompt (phWisdomSourceName ++ (phWisdomSnippet ++ (phUserPrimer ++
          (phUserGoal ++ (phUserFeelingsList ++ phMaxWordCount))))) v
        = v.Wisdom_Source_Name ++ (v.Wisdom_Snippet ++ (v.User_Primer ++
          (v.User_Goal ++ (v.User_Feelings_List ++ natChars v.Max_Word_Count))))) := by
  refine ⟨?_, ?_, ?_⟩
  · -- two occurrences of the goal placeholder, one unknown placeholder
    have occT : ∀ p : List Char, p.head? = some '\x7b' → passes p phUserGoal = true →
        occurs p unknownPh = false →
        occurs p (a ++ (phUserGoal ++ (b ++ (phUserGoal ++ (c ++ unknownPh))))) = false := by
      intro p hp hpass hunk
      exact occurs_seg_noBrace p a _ hp ha
        (occurs_append_passes p _ _ hpass
          (occurs_seg_noBrace p b _ hp hb
            (occurs_append_passes p _ _ hpass
              (occurs_seg_noBrace p c _ hp hc hunk))))
    have occR : ∀ p : List Char, p.head? = some '\x7b' → occurs p unknownPh = false →
        occurs p (a ++ (v.User_Goal ++ (b ++ (v.User_Goal ++ (c ++ unknownPh))))) = false := by
      intro p hp hunk
      exact occurs_seg_noBrace p a _ hp ha
        (occurs_seg_noBrace p _ _ hp hgl.1
          (occurs_seg_noBrace p b _ hp hb
            (occurs_seg_noBrace p _ _ hp hgl.1
              (occurs_seg_noBrace p c _ hp hc hunk))))
    have e4 : replaceAll phUserGoal v.User_Goal
        (a ++ (phUserGoal ++ (b ++ (phUserGoal ++ (c ++ unknownPh)))))
        = a ++ (v.User_Goal ++ (b ++ (v.User_Goal ++ (c ++ unknownPh)))) := by
      rw [replaceAll_seg _ _ a _ (by decide) ha, replaceAll_seg _ _ b _ (by decide) hb,
        replaceAll_of_not_occurs _ _ _ (occurs_seg_noBrace _ c _ (by decide) hc (by decide))]
    simp only [generatePrompt]
    rw [replaceAll_of_not_occurs _ _ _ (occT _ (by decide) (by decide) (by decide)),
      replaceAll_of_not_occurs _ _ _ (occT _ (by decide) (by decide) (by decide)),
      replaceAll_of_not_occurs _ _ _ (occT _ (by decide) (by decide) (by decide)),
      e4,
      replaceAll_of_not_occurs _ _ _ (occR _ (by decide) (by decide)),
      replaceAll_of_not_occurs _ _ _ (occR _ (by decide) (by decide))]
  · -- missing primer and missing feelings list get the default sentences
    have hdp : noBrace primerDefault := by decide
    have hdf : noBrace feelingsDefault := by decide
    have occT : ∀ p : List Char, p.head? = some '\x7b' → passes p phUserPrimer = true →
        passes p phUserFeelingsList = true →
        occurs p (a ++ (phUserPrimer ++ (b ++ (phUserFeelingsList ++ c)))) = false := by
      intro p hp hpassP hpassF
      exact occurs_seg_noBrace p a _ hp ha
        (occurs_append_passes p _ _ hpassP
          (occurs_seg_noBrace p b _ hp hb
            (occurs_append_passes p _ _ hpassF (occurs_of_noBrace p c hp hc))))
    have occM : ∀ p : List Char, p.head? = some '\x7b' → passes p phUserFeelingsList = true →
        occurs p (a ++ (primerDefault ++ (b ++ (phUserFeelingsList ++ c)))) = false := by
      intro p hp hpassF
      exact occurs_seg_noBrace p a _ hp ha
        (occurs_seg_noBrace p _ _ hp hdp
          (occurs_seg_noBrace p b _ hp hb
            (occurs_append_passes p _ _ hpassF (occurs_of_noBrace p c hp hc))))
    have occR : ∀ p : List Char, p.head? = some '\x7b' →
        occurs p (a ++ (primerDefault ++ (b ++ (feelingsDefault ++ c)))) = false := by
      intro p hp
      exact occurs_seg_noBrace p a _ hp ha
        (occurs_seg_noBrace p _ _ hp hdp
          (occurs_seg_noBrace p b _ hp hb
            (occurs_seg_noBrace p _ _ hp hdf (occurs_of_noBrace p c hp hc))))
    have e3 : replaceAll phUserPrimer primerDefault
        (a ++ (phUserPrimer ++ (b ++ (phUserFeelingsList ++ c))))
        = a ++ (primerDefault ++ (b ++ (phUserFeelingsList ++ c))) := by
      rw [replaceAll_seg _ _ a _ (by decide) ha,
        replaceAll_of_not_occurs _ _ _
          (occurs_seg_noBrace _ b _ (by decide) hb
            (occurs_append_passes _ _ _ (by decide) (occurs_of_noBrace _ c (by decide) hc)))]
    have e5 : replaceAll phUserFeelingsList feelingsDefault
        (a ++ (primerDefault ++ (b ++ (phUserFeelingsList ++ c))))
        = a ++ (primerDefault ++ (b ++ (feelingsDefault ++ c))) := by
      rw [replaceAll_map_noBrace _ _ a _ (by decide) ha,
        replaceAll_map_noBrace _ _ primerDefault _ (by decide) hdp,
        replaceAll_map_noBrace _ _ b _ (by decide) hb,
        replaceAll_self_append _ _ c (by decide),
        replaceAll_of_not_occurs _ _ _ (occurs_of_noBrace _ c (by decide) hc)]
    simp only [generatePrompt, jsOrElse, if_true, eq_self_iff_true]
    rw [replaceAll_of_not_occurs _ _ _
        (occT phWisdomSourceName (by decide) (by decide) (by decide)),
      replaceAll_of_not_occurs _ _ _
        (occT phWisdomSnippet (by decide) (by decide) (by decide)),
      e3,
      replaceAll_of_not_occurs _ _ _ (occM phUserGoal (by decide) (by decide)),
      e5,
      replaceAll_of_not_occurs _ _ _ (occR phMaxWordCount (by decide))]
  · -- all six known placeholders, adjacent, each replaced by its value
    intro hpne hfne
    have hjsp : jsOrElse v.User_Primer primerDefault = v.User_Primer := by
      simp [jsOrElse, hpne]
    have hjsf : jsOrElse v.User_Feelings_List feelingsDefault = v.User_Feelings_List := by
      simp [jsOrElse, hfne]
    simp only [generatePrompt, hjsp, hjsf]
    rw [replaceAll_self_append _ _ _ (by decide),
      replaceAll_of_not_occurs phWisdomSourceName _ _ (by decide)]
    rw [replaceAll_seg _ _ v.Wisdom_Source_Name _ (by decide) hws.1,
      replaceAll_of_not_occurs phWisdomSnippet _ _ (by decide)]
    rw [replaceAll_map_noBrace _ _ v.Wisdom_Source_Name _ (by decide) hws.1,
      replaceAll_seg _ _ v.Wisdom_Snippet _ (by decide) hsn.1,
      replaceAll_of_not_occurs phUserPrimer _ _ (by decide)]
    rw [replaceAll_map_noBrace _ _ v.Wisdom_Source_Name _ (by decide) hws.1,
      replaceAll_map_noBrace _ _ v.Wisdom_Snippet _ (by decide) hsn.1,
      replaceAll_seg _ _ v.User_Primer _ (by decide) hpr.1,
      replaceAll_of_not_occurs phUserGoal _ _ (by decide)]
    rw [replaceAll_map_noBrace _ _ v.Wisdom_Source_Name _ (by decide) hws.1,
      replaceAll_map_noBrace _ _ v.Wisdom_Snippet _ (by decide) hsn.1,
      replaceAll_map_noBrace _ _ v.User_Primer _ (by decide) hpr.1,
      replaceAll_seg _ _ v.User_Goal _ (by decide) hgl.1,
      replaceAll_of_not_occurs phUserFeelingsList _ _ (by decide)]
    rw [replaceAll_map_noBrace _ _ v.Wisdom_Source_Name _ (by decide) hws.1,
      replaceAll_map_noBrace _ _ v.Wisdom_Snippet _ (by decide) hsn.1,
      replaceAll_map_noBrace _ _ v.User_Primer _ (by decide) hpr.1,
      replaceAll_map_noBrace _ _ v.User_Goal _ (by decide) hgl.1,
      replaceAll_map_noBrace _ _ v.User_Feelings_List _ (by decide) hfl.1,
      replaceAll_self _ _ (by decide)]

/-- Witness for C6 at concrete template parts and variable values. -/
theorem generatePrompt_substitution_witness :
    (noBrace (str "intro ") ∧ noBrace (str " middle ") ∧ noBrace (str " end") ∧
      plainVal (str "Universal") ∧ plainVal (str "All is one") ∧
      plainVal (str "quiet evening") ∧ plainVal (str "inner peace") ∧
      plainVal (str "stress, worry")) ∧
    generatePrompt
        (str "intro " ++ (phUserGoal ++ (str " middle " ++ (phUserGoal ++ (str " end" ++ unknownPh)))))
        { Wisdom_Source_Name := str "Universal", Wisdom_Snippet := str "All is one",
          User_Primer := str "quiet evening", User_Goal := str "inner peace",
          User_Feelings_List := str "stress, worry", Max_Word_Count := 200 }
      = str "intro " ++ (str "inner peace" ++ (str " middle " ++ (str "inner peace" ++ (str " end" ++ unknownPh)))) :=
  ⟨⟨by decide, by decide, by decide, by decide, by decide, by decide, by decide, by decide⟩,
    (generatePrompt_substitution (str "intro ") (str " middle ") (str " end")
      { Wisdom_Source_Name := str "Universal", Wisdom_Snippet := str "All is one",
        User_Primer := str "quiet evening", User_Goal := str "inner peace",
        User_Feelings_List := str "stress, worry", Max_Word_Count := 200 }
      (by decide) (by decide) (by decide) (by decide) (by decide) (by decide) (by decide)
      (by decide)).1⟩

/-- C8: once no known placeholder remains in the output of the
substitution, applying the substitution again to that output returns it
unchanged — the substitution is idempotent on placeholder-free results. -/
theorem generatePrompt_idem (t : List Char) (v : PromptVariables)
    (h1 : occurs phWisdomSourceName (generatePrompt t v) = false)
    (h2 : occurs phWisdomSnippet (generatePrompt t v) = false)
    (h3 : occurs phUserPrimer (generatePrompt t v) = false)
    (h4 : occurs phUserGoal (generatePrompt t v) = false)
    (h5 : occurs phUserFeelingsList (generatePrompt t v) = false)
    (h6 : occurs phMaxWordCount (generatePrompt t v) = false) :
    generatePrompt (generatePrompt t v) v = generatePrompt t v := by
  generalize hS : generatePrompt t v = S at h1 h2 h3 h4 h5 h6 ⊢
  simp only [generatePrompt]
  rw [replaceAll_of_not_occurs _ _ _ h1, replaceAll_of_not_occurs _ _ _ h2,
    replaceAll_of_not_occurs _ _ _ h3, replaceAll_of_not_occurs _ _ _ h4,
    replaceAll_of_not_occurs _ _ _ h5, replaceAll_of_not_occurs _ _ _ h6]

/-- Concrete variable record used by the idempotence witness. -/
def sampleVars : PromptVariables :=
  { Wisdom_Source_Name := str "Universal"
    Wisdom_Snippet := str "All is one"
    User_Primer := str "calming evening"
    User_Goal := str "calm"
    User_Feelings_List := str "stress"
    Max_Word_Count := 50 }

theorem sample_generatePrompt : generatePrompt phUserGoal sampleVars = str "calm" := by
  simp only [generatePrompt]
  rw [replaceAll_of_not_occurs phWisdomSourceName sampleVars.Wisdom_Source_Name phUserGoal
      (by decide),
    replaceAll_of_not_occurs phWisdomSnippet sampleVars.Wisdom_Snippet phUserGoal (by decide),
    replaceAll_of_not_occurs phUserPrimer (jsOrElse sampleVars.User_Primer primerDefault)
      phUserGoal (by decide),
    replaceAll_self phUserGoal sampleVars.User_Goal (by decide),
    replaceAll_of_not_occurs phUserFeelingsList
      (jsOrElse sampleVars.User_Feelings_List feelingsDefault) sampleVars.User_Goal (by decide),
    replaceAll_of_not_occurs phMaxWordCount (natChars sampleVars.Max_Word_Count)
      sampleVars.User_Goal (by decide)]
  rfl

/-- Witness for C8 at a concrete template and variable record whose output
contains no known placeholder. -/
theorem generatePrompt_idem_witness :
    (occurs phWisdomSourceName (generatePrompt phUserGoal sampleVars) = false ∧
      occurs phWisdomSnippet (generatePrompt phUserGoal sampleVars) = false ∧
      occurs phUserPrimer (generatePrompt phUserGoal sampleVars) = false ∧
      occurs phUserGoal (generatePrompt phUserGoal sampleVars) = false ∧
      occurs phUserFeelingsList (generatePrompt phUserGoal sampleVars) = false ∧
      occurs phMaxWordCount (generatePrompt phUserGoal sampleVars) = false) ∧
    generatePrompt (generatePrompt phUserGoal sampleVars) sampleVars
      = generatePrompt phUserGoal sampleVars :=
  ⟨⟨by rw [sample_generatePrompt]; decide, by rw [sample_generatePrompt]; decide,
    by rw [sample_generatePrompt]; decide, by rw [sample_generatePrompt]; decide,
    by rw [sample_generatePrompt]; decide, by rw [sample_generatePrompt]; decide⟩,
    generatePrompt_idem phUserGoal sampleVars
      (by rw [sample_generatePrompt]; decide) (by rw [sample_generatePrompt]; decide)
      (by rw [sample_generatePrompt]; decide) (by rw [sample_generatePrompt]; decide)
      (by rw [sample_generatePrompt]; decide) (by rw [sample_generatePrompt]; decide)⟩

/-! ### Voice synthesis client (VoiceSynthesis, src/unnamed/part_001)

The voice table, the script-text processing, the synthesis request
construction and the factory selecting between the ElevenLabs client and
the browser speech fallback are embedded below.  The HTTP request itself is
represented by the request value the code would send. -/

/-- Case-insensitive variant of leadsWith, for the i-flagged literal
patterns of processScriptText. -/
def leadsWithCI : List Char → List Char → Bool
  | [], _ => true
  | _ :: _, [] => false
  | a :: p, b :: s => (a.toLower == b.toLower) && leadsWithCI p s

/-- Case-insensitive global literal replacement, the embedding of
String.replace with a gi-flagged literal pattern. -/
def replaceAllCI (p r : List Char) (s : List Char) : List Char :=
  match s with
  | [] => []
  | c :: s' =>
    if leadsWithCI p (c :: s') && !p.isEmpty then
      r ++ replaceAllCI p r (s'.drop (p.length - 1))
    else
      c :: replaceAllCI p r s'
termination_by s.length
decreasing_by
  · simp only [List.length_drop, List.length_cons]
    omega
  · simp only [List.length_cons]
    omega

/-- JavaScript word character, the w character class. -/
def isWordChar (c : Char) : Bool := c.isAlphanum || c == '_'

/-- Keywords of the emphasis pattern, in the alternation order of the
source regex. -/
def emphasisKeywords : List (List Char) :=
  [str "breathe", str "breath", str "relax", str "release", str "peace", str "calm"]

/-- First emphasis keyword matching case-insensitively at the head of the
string with a word boundary after it (the before-boundary is the caller's
responsibility).  Matching keywords are nonempty by construction. -/
def findKeyword (s : List Char) : Option (List Char) :=
  emphasisKeywords.find? (fun k =>
    !k.isEmpty && leadsWithCI k s &&
      !(match (s.drop k.length).head? with
        | some c => isWordChar c
        | none => false))

theorem findKeyword_nonempty {s k : List Char} (h : findKeyword s = some k) : k ≠ [] := by
  have hp := List.find?_some h
  intro hk
  rw [hk] at hp
  simp at hp

def emphasisOpen : List Char := str "<emphasis level=\"moderate\">"

def emphasisClose : List Char := str "</emphasis>"

/-- Embedding of the gi-flagged word-boundary emphasis regex of
processScriptText: scan left to right tracking whether the previous
character is a word character; at each boundary position try the keyword
alternatives in order; wrap the matched text (with its original case, the
regex backreference) in emphasis tags and resume after it. -/
def emphasize (prevIsWord : Bool) (s : List Char) : List Char :=
  match s with
  | [] => []
  | c :: t =>
    if prevIsWord then
      c :: emphasize (isWordChar c) t
    else
      match hk : findKeyword (c :: t) with
      | some k =>
        (emphasisOpen ++ ((c :: t).take k.length ++ emphasisClose)) ++
          emphasize true ((c :: t).drop k.length)
      | none => c :: emphasize (isWordChar c) t
termination_by s.length
decreasing_by
  · simp only [List.length_cons]
    omega
  · have hne : k ≠ [] := findKeyword_nonempty hk
    have hlen : 0 < k.length := List.length_pos.mpr hne
    simp only [List.length_drop, List.length_cons]
    omega
  · simp only [List.length_cons]
    omega

/-- Embedding of VoiceSynthesis.processScriptText: strip the script
formatting tags case-insensitively, insert SSML break tags after sentence
punctuation, add emphasis markup around key meditation words, and wrap the
result in speak tags.  The speed parameter is accepted and ignored, as in
the source. -/
def processScriptText (text : List Char) (speed : ℚ) : List Char :=
  let t1 := replaceAllCI (str "[Pause]") [] text
  let t2 := replaceAllCI (str "[Core Message]") [] t1
  let t3 := replaceAllCI (str "[Deep Breath]") [] t2
  let t4 := replaceAllCI (str "[Gentle Guidance]") [] t3
  let t5 := replaceAllCI (str "[Closing]") [] t4
  let t6 := replaceAllCI (str "[Introduction]") [] t5
  let t7 := replaceAll (str ".") (str ".<break time=\"2.5s\"/>") t6
  let t8 := replaceAll (str ",") (str ",<break time=\"1.2s\"/>") t7
  let t9 := replaceAll (str ":") (str ":<break time=\"1.5s\"/>") t8
  let t10 := replaceAll (str ";") (str ";<break time=\"1.5s\"/>") t9
  let t11 := emphasize false t10
  str "<speak>" ++ t11 ++ str "</speak>"

/-- Voice profile entry of the private voices table. -/
structure VoiceProfile where
  id : List Char
  name : List Char
  description : List Char

/-- Property names inherited by every plain object literal from
Object.prototype in a standard JavaScript environment.  Reading any of
these on the voices object literal yields the inherited member (a function,
or for the proto accessor an object), all of which are truthy. -/
def objectPrototypeKeys : List (List Char) :=
  [str "constructor", str "hasOwnProperty", str "isPrototypeOf",
   str "propertyIsEnumerable", str "toLocaleString", str "toString", str "valueOf",
   str "__proto__", str "__defineGetter__", str "__defineSetter__",
   str "__lookupGetter__", str "__lookupSetter__"]

/-- Result of the JavaScript property access this.voices[voiceId] on the
voices object literal: an own entry (one of the four voice keys), a truthy
member inherited from Object.prototype, or undefined. -/
inductive VoiceLookup where
  | voice (profile : VoiceProfile) : VoiceLookup
  | protoMember : VoiceLookup
  | undefinedProp : VoiceLookup

/-- Embedding of the lookup this.voices[voiceId as keyof typeof this.voices]:
the cast is compile-time only, so at runtime this is plain property access —
the four own keys map to their profiles, the Object.prototype property names
yield the truthy inherited member, and every other string yields
undefined. -/
def voices (voiceId : List Char) : VoiceLookup :=
  if voiceId = str "female-1" then
    .voice { id := str "YRROo374F8CyWnUy6mdE", name := str "Kelli-2",
             description := str "50-year-old female, extremely pleasing and comforting for deep guided meditation" }
  else if voiceId = str "female-2" then
    .voice { id := str "lVmv79IJaUdqekJlBLHn", name := str "Shelia-1",
             description := str "Calming female voice for guided meditations" }
  else if voiceId = str "female-3" then
    .voice { id := str "Atp5cNFg1Wj5gyKD7HWV", name := str "Natasha",
             description := str "Soothing female voice for meditation guidance" }
  else if voiceId = str "male-1" then
    .voice { id := str "xtwJZRzZhlI4QAgP0tT3", name := str "Bernard-1",
             description := str "Soft and subdued male voice, optimal for meditations and narrations" }
  else if voiceId ∈ objectPrototypeKeys then
    .protoMember
  else
    .undefinedProp

/-- The synthesis request the client would POST, capturing the endpoint
voice and the processed request body. -/
structure VoiceRequest where
  urlVoiceId : List Char
  text : List Char
  model_id : List Char

def elevenLabsBaseUrl : List Char := str "https://api.elevenlabs.io/v1"

/-- Embedding of VoiceSynthesis.synthesizeText.  The guard throws only
when the lookup is falsy, that is when the property is absent; a looked-up
own voice yields the synthesis request with its ElevenLabs id.  A truthy
member inherited from Object.prototype also passes the guard: the code then
proceeds to the request with voice.id === undefined, which the template
literal of the URL renders as the text undefined. -/
def synthesizeText (text voiceId : List Char) (speed : ℚ) :
    Except (List Char) VoiceRequest :=
  match voices voiceId with
  | .undefinedProp => .error (str "Voice ID " ++ (voiceId ++ str " not found"))
  | .voice voice =>
    .ok { urlVoiceId := voice.id
          text := processScriptText text speed
          model_id := str "eleven_multilingual_v2" }
  | .protoMember =>
    .ok { urlVoiceId := str "undefined"
          text := processScriptText text speed
          model_id := str "eleven_multilingual_v2" }

/-- C10 counterexample: the voice identifier constructor is not one of the
four known voice keys, yet synthesizing with it does not throw — the
inherited Object.prototype member is truthy, so the guard passes and a
synthesis request is made, to the endpoint for the voice id undefined. -/
theorem synthesizeText_proto_cex :
    str "constructor" ∉ [str "female-1", str "female-2", str "female-3", str "male-1"] ∧
    ∃ req : VoiceRequest,
      synthesizeText (str "hello") (str "constructor") (85 / 100) = .ok req ∧
      req.urlVoiceId = str "undefined" :=
  ⟨by decide, ⟨_, rfl, rfl⟩⟩

/-- C10 amended: for every voice identifier that is neither one of the
four known voice keys nor an Object.prototype property name, synthesizeText
throws the not-found error before any request is constructed; for each of
the four known keys it proceeds to the synthesis request; and for the
inherited Object.prototype property names the guard erroneously passes and
a request for the voice id undefined is made. -/
theorem synthesizeText_voice_guard_amended :
    (∀ voiceId text : List Char, ∀ speed : ℚ,
      voiceId ∉ [str "female-1", str "female-2", str "female-3", str "male-1"] →
      voiceId ∉ objectPrototypeKeys →
      synthesizeText text voiceId speed
        = .error (str "Voice ID " ++ (voiceId ++ str " not found"))) ∧
    (∀ voiceId : List Char,
      voiceId ∈ [str "female-1", str "female-2", str "female-3", str "male-1"] →
      ∀ text : List Char, ∀ speed : ℚ,
      ∃ req : VoiceRequest, synthesizeText text voiceId speed = .ok req) ∧
    (∀ voiceId : List Char, voiceId ∈ objectPrototypeKeys →
      ∀ text : List Char, ∀ speed : ℚ,
      ∃ req : VoiceRequest,
        synthesizeText text voiceId speed = .ok req ∧ req.urlVoiceId = str "undefined") := by
  refine ⟨?_, ?_, ?_⟩
  · intro voiceId text speed h hp
    simp only [List.mem_cons, List.not_mem_nil, or_false, not_or] at h
    obtain ⟨h1, h2, h3, h4⟩ := h
    simp [synthesizeText, voices, h1, h2, h3, h4, hp]
  · intro voiceId h text speed
    simp only [List.mem_cons, List.not_mem_nil, or_false] at h
    rcases h with rfl | rfl | rfl | rfl <;> exact ⟨_, rfl⟩
  · intro voiceId h text speed
    simp only [objectPrototypeKeys, List.mem_cons, List.not_mem_nil, or_false] at h
    rcases h with rfl | rfl | rfl | rfl | rfl | rfl | rfl | rfl | rfl | rfl | rfl | rfl <;>
      exact ⟨_, rfl, rfl⟩

/-- Witness for C10 amended at a plain unknown key, at one of the known
keys, and at an inherited property name. -/
theorem synthesizeText_voice_guard_amended_witness :
    (str "bogus" ∉ [str "female-1", str "female-2", str "female-3", str "male-1"] ∧
      str "bogus" ∉ objectPrototypeKeys ∧
      synthesizeText (str "hello") (str "bogus") (85 / 100)
        = .error (str "Voice ID " ++ (str "bogus" ++ str " not found"))) ∧
    (str "female-1" ∈ [str "female-1", str "female-2", str "female-3", str "male-1"] ∧
      ∃ req : VoiceRequest,
        synthesizeText (str "hello") (str "female-1") (85 / 100) = .ok req) ∧
    (str "toString" ∈ objectPrototypeKeys ∧
      ∃ req : VoiceRequest,
        synthesizeText (str "hello") (str "toString") (85 / 100) = .ok req ∧
        req.urlVoiceId = str "undefined") :=
  ⟨⟨by decide, by decide,
    synthesizeText_voice_guard_amended.1 (str "bogus") (str "hello") (85 / 100)
      (by decide) (by decide)⟩,
    ⟨by decide,
      synthesizeText_voice_guard_amended.2.1 (str "female-1") (by decide)
        (str "hello") (85 / 100)⟩,
    ⟨by decide,
      synthesizeText_voice_guard_amended.2.2 (str "toString") (by decide)
        (str "hello") (85 / 100)⟩⟩

/-- Result of the createVoiceSynthesis factory: the provider-backed client
holding the credential, or the degraded browser speech fallback. -/
inductive SynthChoice where
  | elevenLabs (apiKey : List Char) : SynthChoice
  | fallbackBrowser : SynthChoice
deriving DecidableEq

/-- Embedding of the createVoiceSynthesis factory.  The two environment
variables ELEVENLABS_API_KEY and NEXT_PUBLIC_ELEVENLABS_API_KEY are
optional strings (none models an unset variable); the source takes the
first truthy one and selects the fallback when the result is falsy. -/
def createVoiceSynthesis (elevenLabsApiKey nextPublicKey : Option (List Char)) : SynthChoice :=
  let apiKey := jsOrElse (elevenLabsApiKey.getD []) (nextPublicKey.getD [])
  if apiKey = [] then .fallbackBrowser else .elevenLabs apiKey

/-- C9: with the narration-provider credential absent from the environment
the factory deterministically selects the degraded local-speech fallback
(it does not fail: the factory is a total function); with a nonempty
credential present in either environment variable it selects the
provider-backed synthesizer holding that credential. -/
theorem createVoiceSynthesis_selection :
    createVoiceSynthesis none none = SynthChoice.fallbackBrowser ∧
    (∀ k : List Char, k ≠ [] → ∀ e2 : Option (List Char),
      createVoiceSynthesis (some k) e2 = SynthChoice.elevenLabs k) ∧
    (∀ k : List Char, k ≠ [] →
      createVoiceSynthesis none (some k) = SynthChoice.elevenLabs k) := by
  refine ⟨rfl, ?_, ?_⟩
  · intro k hk e2
    simp [createVoiceSynthesis, jsOrElse, hk]
  · intro k hk
    simp [createVoiceSynthesis, jsOrElse, hk]

/-- Witness for C9 at a concrete nonempty credential. -/
theorem createVoiceSynthesis_selection_witness :
    (str "sk-demo-key" ≠ ([] : List Char)) ∧
      createVoiceSynthesis (some (str "sk-demo-key")) none
        = SynthChoice.elevenLabs (str "sk-demo-key") :=
  ⟨by decide, createVoiceSynthesis_selection.2.1 (str "sk-demo-key") (by decide) none⟩

/-! ### Session player (SessionPlayer, src/unnamed/part_002)

The player's phase state machine, its audio elements and the operations
startSession, the scheduled lead-in callback, pauseSession, resumeSession,
stopSession and the one-second tick callback of startTimer are embedded as
transformations of an explicit session state.  Audio positions, durations
and volumes are rationals; elapsed and total times are integer seconds, as
maintained by the tick timer. -/

/-- Session phases of the player, as in the source union type. -/
inductive SessionPhase where
  | loading
  | ready
  | playing
  | paused
  | completed
deriving DecidableEq

/-- Observable state of an HTMLAudioElement used for a narration segment. -/
structure AudioEl where
  currentTime : ℚ
  duration : ℚ
  paused : Bool
  volume : ℚ
deriving DecidableEq

/-- Observable state of the background music element. -/
structure MusicEl where
  volume : ℚ
  paused : Bool
deriving DecidableEq

/-- State of one SessionPlayer instance: the phase, the tick counter and
reconciled total, the music element and the two live volume settings, the
three optional narration elements, whether the interval timer is running,
and the cumulative user statistics in minutes. -/
structure SessionState where
  phase : SessionPhase
  currentTime : ℤ
  totalTime : ℤ
  music : Option MusicEl
  music_volume : ℚ
  voice_volume : ℚ
  intro : Option AudioEl
  main : Option AudioEl
  closing : Option AudioEl
  timerRunning : Bool
  userStatsMinutes : ℤ
deriving DecidableEq

/-- Modelled from the spec: DEFAULT_AUDIO_TIMING.voiceStartDelay is
imported from the audio configuration module, which is not among the
provided sources; the spec and the source comment fix the lead-in before
narration at 10 seconds. -/
def DEFAULT_AUDIO_TIMING_voiceStartDelay : ℚ := 10

/-- Modelled from the spec: DEFAULT_AUDIO_TIMING.musicFadeAfterVoice is
imported from the audio configuration module, which is not among the
provided sources; the spec and the source comment fix the music outro after
narration at 10 seconds. -/
def DEFAULT_AUDIO_TIMING_musicFadeAfterVoice : ℚ := 10

def VOICE_START_DELAY : ℚ := DEFAULT_AUDIO_TIMING_voiceStartDelay

def MUSIC_FADE_AFTER_VOICE : ℚ := DEFAULT_AUDIO_TIMING_musicFadeAfterVoice

/-- Set an element's volume and start it playing, the volume-then-play
sequence used throughout the source. -/
def playAudio (vol : ℚ) (a : AudioEl) : AudioEl := { a with volume := vol, paused := false }

/-- Embedding of startSession: enter playing, set the music element to the
music volume setting and start it; the intro narration is not started here
but only scheduled — the scheduled callback is fireLeadInTimeout below —
and the tick timer is started. -/
def startSession (s : SessionState) : SessionState :=
  { s with phase := SessionPhase.playing
           music := s.music.map (fun m => { m with volume := s.music_volume, paused := false })
           timerRunning := true }

/-- Embedding of the setTimeout callback scheduled by startSession after
VOICE_START_DELAY seconds: if the intro element exists and the phase is
still playing, start the intro at the voice volume setting; otherwise do
nothing. -/
def fireLeadInTimeout (s : SessionState) : SessionState :=
  match s.intro with
  | some a =>
    if s.phase = SessionPhase.playing then
      { s with intro := some (playAudio s.voice_volume a) }
    else s
  | none => s

/-- Embedding of pauseSession: enter paused, pause the music and every
narration element (pausing an already paused element is a no-op), and clear
the interval timer.  All playback positions are preserved. -/
def pauseSession (s : SessionState) : SessionState :=
  { s with phase := SessionPhase.paused
           music := s.music.map (fun m => { m with paused := true })
           intro := s.intro.map (fun a => { a with paused := true })
           main := s.main.map (fun a => { a with paused := true })
           closing := s.closing.map (fun a => { a with paused := true })
           timerRunning := false }

/-- The resumeSession search predicate: a paused element whose position is
strictly between zero and its duration. -/
def isMidPlayback (a : AudioEl) : Bool :=
  a.paused && decide (0 < a.currentTime) && decide (a.currentTime < a.duration)

/-- The voice-resume step of resumeSession: find, in intro-main-closing
order, a paused element mid-playback and play it at the voice volume; when
there is none and the intro element exists with position zero, play the
intro from the beginning immediately. -/
def resumeVoice (vol : ℚ) (s : SessionState) : SessionState :=
  if (s.intro.map isMidPlayback).getD false then
    { s with intro := s.intro.map (playAudio vol) }
  else if (s.main.map isMidPlayback).getD false then
    { s with main := s.main.map (playAudio vol) }
  else if (s.closing.map isMidPlayback).getD false then
    { s with closing := s.closing.map (playAudio vol) }
  else
    match s.intro with
    | some a => if a.currentTime = 0 then { s with intro := some (playAudio vol a) } else s
    | none => s

/-- Embedding of resumeSession: enter playing, resume the music at the
music volume setting, run the voice-resume step, and restart the tick
timer. -/
def resumeSession (s : SessionState) : SessionState :=
  resumeVoice s.voice_volume
    { s with phase := SessionPhase.playing
             music := s.music.map (fun m => { m with volume := s.music_volume, paused := false })
             timerRunning := true }

/-- Halt a narration element and reset its position to zero, as stopSession
does to every element. -/
def stopAudio (a : AudioEl) : AudioEl := { a with paused := true, currentTime := 0 }

/-- Embedding of stopSession: enter completed, stop all audio, reset every
narration position to zero, clear the interval timer, and record
floor(currentTime / 60) minutes into the user statistics.  The cumulative
accumulation is modelled from the spec: updateUserStats lives in the
application store, which is not among the provided sources; the spec says
elapsed minutes are recorded into cumulative user statistics. -/
def stopSession (s : SessionState) : SessionState :=
  { s with phase := SessionPhase.completed
           music := s.music.map (fun m => { m with paused := true })
           intro := s.intro.map stopAudio
           main := s.main.map stopAudio
           closing := s.closing.map stopAudio
           timerRunning := false
           userStatsMinutes := s.userStatsMinutes + Int.fdiv s.currentTime 60 }

/-- Embedding of the one-second interval callback installed by startTimer:
increment the elapsed time by one; when the remaining time is within the
final five seconds (and nonzero) set the music volume to
remaining/5 times the music volume setting; when the new time reaches the
total, stop the session and pin the displayed time at the total.  The
stop records statistics from the pre-increment elapsed time, matching the
stale closure over currentTime in the source. -/
def tick (s : SessionState) : SessionState :=
  let newTime := s.currentTime + 1
  let remainingTime := s.totalTime - newTime
  let s1 :=
    if remainingTime ≤ 5 ∧ 0 < remainingTime then
      let fadeVolume : ℚ := (remainingTime : ℚ) / 5 * s.music_volume
      { s with music := s.music.map (fun m => { m with volume := fadeVolume }) }
    else s
  if s.totalTime ≤ newTime then
    { stopSession s1 with currentTime := s.totalTime }
  else
    { s1 with currentTime := newTime }

/-- Sum of the three measured narration durations, as computed in
initializeSession once the audio metadata has loaded. -/
def totalVoiceDuration (introDur mainDur closingDur : ℚ) : ℚ :=
  introDur + mainDur + closingDur

/-- Embedding of the actual session duration computed in initializeSession:
music lead-in, then the measured narration, then the music outro. -/
def actualSessionDuration (introDur mainDur closingDur : ℚ) : ℚ :=
  VOICE_START_DELAY + totalVoiceDuration introDur mainDur closingDur + MUSIC_FADE_AFTER_VOICE

/-- Total time initially displayed: the requested session duration in
minutes converted to seconds, as set when the player state initializes. -/
def initialTotalTime (requestedMinutes : ℤ) : ℤ := requestedMinutes * 60

/-- Total time displayed after narration metadata is available: the
ceiling of the actual session duration, which initializeSession writes over
the initial value whatever the requested duration was. -/
def totalTimeAfterMetadata (requestedMinutes : ℤ) (introDur mainDur closingDur : ℚ) : ℤ :=
  ⌈actualSessionDuration introDur mainDur closingDur⌉

/-- Specification formula for the session duration: lead-in seconds plus
the sum of the narration durations plus fade-out seconds. -/
def specSessionDuration (leadIn fadeOut : ℚ) (narrationDurations : List ℚ) : ℚ :=
  leadIn + narrationDurations.sum + fadeOut

/-- C2: once narration audio metadata is available, the actual session
duration computed by initializeSession equals lead-in seconds plus the sum
of the three narration durations plus fade-out seconds, and the displayed
total becomes its ceiling, whatever duration was originally requested; with
narration durations 12, 90 and 15 seconds and the 10-second lead-in and
fade-out, the displayed total is 137 (superseding, e.g., a requested 3
minutes = 180 seconds). -/
theorem totalTime_reconciliation :
    (∀ i m c : ℚ, actualSessionDuration i m c = specSessionDuration 10 10 [i, m, c]) ∧
    (∀ requested : ℤ, ∀ i m c : ℚ,
      totalTimeAfterMetadata requested i m c = ⌈specSessionDuration 10 10 [i, m, c]⌉) ∧
    actualSessionDuration 12 90 15 = 137 ∧
    initialTotalTime 3 = 180 ∧
    totalTimeAfterMetadata 3 12 90 15 = 137 := by
  have h : ∀ i m c : ℚ, actualSessionDuration i m c = specSessionDuration 10 10 [i, m, c] := by
    intro i m c
    simp only [actualSessionDuration, specSessionDuration, totalVoiceDuration,
      VOICE_START_DELAY, MUSIC_FADE_AFTER_VOICE, DEFAULT_AUDIO_TIMING_voiceStartDelay,
      DEFAULT_AUDIO_TIMING_musicFadeAfterVoice, List.sum_cons, List.sum_nil]
    ring
  have h137 : actualSessionDuration 12 90 15 = 137 := by
    rw [h]
    simp only [specSessionDuration, List.sum_cons, List.sum_nil]
    norm_num
  refine ⟨h, ?_, h137, by decide, ?_⟩
  · intro requested i m c
    rw [totalTimeAfterMetadata, h]
  · rw [totalTimeAfterMetadata, h137]
    norm_num

/-- C1: one tick of the interval callback while the session is playing:
elapsed time increases by exactly one; when the remaining time after the
increment is at most five seconds and strictly positive, the music element
volume becomes remaining/5 times the current music volume setting; and when
the incremented time reaches or exceeds the total, the session transitions
to completed and the timer stops.  The real-time firing of the interval
once per second is a property of setInterval and is represented by the tick
transition itself. -/
theorem tick_playing_semantics (s : SessionState) (hph : s.phase = SessionPhase.playing) :
    (s.currentTime < s.totalTime → (tick s).currentTime = s.currentTime + 1) ∧
    (∀ m : MusicEl, s.music = some m →
      s.totalTime - (s.currentTime + 1) ≤ 5 → 0 < s.totalTime - (s.currentTime + 1) →
      (tick s).music.map MusicEl.volume
        = some (((s.totalTime - (s.currentTime + 1) : ℤ) : ℚ) / 5 * s.music_volume)) ∧
    (s.totalTime ≤ s.currentTime + 1 →
      (tick s).phase = SessionPhase.completed ∧ (tick s).timerRunning = false) := by
  refine ⟨?_, ?_, ?_⟩
  · intro h
    simp only [tick]
    by_cases hc : s.totalTime ≤ s.currentTime + 1
    · rw [if_pos hc]
      simp only []
      omega
    · rw [if_neg hc]
  · intro m hm h5 h0
    have hA : s.totalTime - (s.currentTime + 1) ≤ 5 ∧ 0 < s.totalTime - (s.currentTime + 1) :=
      ⟨h5, h0⟩
    have hnc : ¬ s.totalTime ≤ s.currentTime + 1 := by omega
    simp only [tick]
    rw [if_pos hA, if_neg hnc]
    simp [hm]
  · intro h
    simp only [tick]
    rw [if_pos h]
    exact ⟨by simp [stopSession], by simp [stopSession]⟩

/-- Concrete playing state used by the tick witness: total 10 seconds,
elapsed 6, music volume setting 0.4. -/
def tickSample : SessionState :=
  { phase := SessionPhase.playing, currentTime := 6, totalTime := 10,
    music := some { volume := 2 / 5, paused := false },
    music_volume := 2 / 5, voice_volume := 4 / 5,
    intro := none, main := none, closing := none,
    timerRunning := true, userStatsMinutes := 0 }

/-- Witness for C1: at 3 seconds remaining with music volume setting 0.4
the tick sets the music volume to (3/5) * 0.4 = 0.24 and advances the
elapsed time from 6 to 7. -/
theorem tick_playing_semantics_witness :
    tickSample.phase = SessionPhase.playing ∧
    tickSample.currentTime < tickSample.totalTime ∧
    (tick tickSample).currentTime = tickSample.currentTime + 1 ∧
    tickSample.music = some { volume := 2 / 5, paused := false } ∧
    tickSample.totalTime - (tickSample.currentTime + 1) ≤ 5 ∧
    0 < tickSample.totalTime - (tickSample.currentTime + 1) ∧
    (tick tickSample).music.map MusicEl.volume
      = some (((tickSample.totalTime - (tickSample.currentTime + 1) : ℤ) : ℚ) / 5
          * tickSample.music_volume) ∧
    ((tickSample.totalTime - (tickSample.currentTime + 1) : ℤ) : ℚ) / 5
        * tickSample.music_volume = 24 / 100 := by
  have h := tick_playing_semantics tickSample (by decide)
  exact ⟨by decide, by decide, h.1 (by decide), rfl, by decide, by decide,
    h.2.1 { volume := 2 / 5, paused := false } rfl (by decide) (by decide),
    by norm_num [tickSample]⟩

/-- C4: stopping a session in any phase other than loading transitions it
to completed, resets every narration element to position zero (and halts
it), clears the tick timer, and records floor(elapsedSeconds / 60) minutes
into the cumulative user statistics. -/
theorem stopSession_behavior (s : SessionState) (hph : s.phase ≠ SessionPhase.loading) :
    (stopSession s).phase = SessionPhase.completed ∧
    (∀ a : AudioEl,
      (stopSession s).intro = some a ∨ (stopSession s).main = some a ∨
        (stopSession s).closing = some a →
      a.currentTime = 0 ∧ a.paused = true) ∧
    (stopSession s).timerRunning = false ∧
    (stopSession s).userStatsMinutes = s.userStatsMinutes + Int.fdiv s.currentTime 60 := by
  refine ⟨rfl, ?_, rfl, rfl⟩
  intro a ha
  rcases ha with ha | ha | ha
  · simp only [stopSession, Option.map_eq_some'] at ha
    obtain ⟨b, hb, hba⟩ := ha
    rw [← hba]
    simp [stopAudio]
  · simp only [stopSession, Option.map_eq_some'] at ha
    obtain ⟨b, hb, hba⟩ := ha
    rw [← hba]
    simp [stopAudio]
  · simp only [stopSession, Option.map_eq_some'] at ha
    obtain ⟨b, hb, hba⟩ := ha
    rw [← hba]
    simp [stopAudio]

/-- Concrete mid-session state used by the stop witness: 125 elapsed
seconds, main narration mid-playback. -/
def stopSample : SessionState :=
  { phase := SessionPhase.playing, currentTime := 125, totalTime := 300,
    music := some { volume := 1 / 2, paused := false },
    music_volume := 1 / 2, voice_volume := 4 / 5,
    intro := some { currentTime := 12, duration := 12, paused := true, volume := 4 / 5 },
    main := some { currentTime := 40, duration := 90, paused := false, volume := 4 / 5 },
    closing := some { currentTime := 0, duration := 15, paused := true, volume := 4 / 5 },
    timerRunning := true, userStatsMinutes := 7 }

/-- Witness for C4 at a concrete playing state with 125 elapsed seconds,
which records floor(125/60) = 2 minutes. -/
theorem stopSession_behavior_witness :
    stopSample.phase ≠ SessionPhase.loading ∧
    ((stopSession stopSample).phase = SessionPhase.completed ∧
      (∀ a : AudioEl,
        (stopSession stopSample).intro = some a ∨ (stopSession stopSample).main = some a ∨
          (stopSession stopSample).closing = some a →
        a.currentTime = 0 ∧ a.paused = true) ∧
      (stopSession stopSample).timerRunning = false ∧
      (stopSession stopSample).userStatsMinutes
        = stopSample.userStatsMinutes + Int.fdiv stopSample.currentTime 60) :=
  ⟨by decide, stopSession_behavior stopSample (by decide)⟩

/-- Concrete ready state with the three narration elements loaded and at
position zero, used for the pause/resume analysis. -/
def readyState : SessionState :=
  { phase := SessionPhase.ready, currentTime := 0, totalTime := 137,
    music := some { volume := 1 / 2, paused := true },
    music_volume := 1 / 2, voice_volume := 4 / 5,
    intro := some { currentTime := 0, duration := 12, paused := true, volume := 4 / 5 },
    main := some { currentTime := 0, duration := 90, paused := true, volume := 4 / 5 },
    closing := some { currentTime := 0, duration := 15, paused := true, volume := 4 / 5 },
    timerRunning := false, userStatsMinutes := 0 }

/-- C3 counterexample: start the session, pause before the lead-in delay
elapses (no tick has fired, so zero non-paused seconds have passed), then
resume.  The intro narration is playing immediately after the resume, even
though the elapsed non-paused time 0 is less than the 10-second lead-in —
so a later resume does not respect the original lead-in delay. -/
theorem resume_starts_intro_early_cex :
    (resumeSession (pauseSession (startSession readyState))).intro.map AudioEl.paused
        = some false ∧
    (resumeSession (pauseSession (startSession readyState))).currentTime = 0 ∧
    (0 : ℚ) < VOICE_START_DELAY := by
  refine ⟨by decide, by decide, ?_⟩
  norm_num [VOICE_START_DELAY, DEFAULT_AUDIO_TIMING_voiceStartDelay]

/-- C3 amended: starting a session does not itself begin narration (the
intro start is only scheduled), and the scheduled lead-in callback no-ops
in any phase other than playing — so pausing before the lead-in elapses
prevents narration from starting while paused.  However, on a later resume
with no narration segment mid-playback and the intro at position zero, the
intro starts playing immediately at the resume, not after the remaining
lead-in. -/
theorem leadIn_pause_resume_amended :
    (∀ s : SessionState, (startSession s).intro = s.intro) ∧
    (∀ s : SessionState, s.phase ≠ SessionPhase.playing → fireLeadInTimeout s = s) ∧
    (∀ s : SessionState, ∀ a : AudioEl, s.intro = some a →
      isMidPlayback a = false →
      (s.main.map isMidPlayback).getD false = false →
      (s.closing.map isMidPlayback).getD false = false →
      a.currentTime = 0 →
      (resumeSession s).intro.map AudioEl.paused = some false) := by
  refine ⟨fun s => rfl, ?_, ?_⟩
  · intro s hph
    cases hm : s.intro with
    | none => simp [fireLeadInTimeout, hm]
    | some a => simp [fireLeadInTimeout, hm, hph]
  · intro s a ha hmid hmain hclos hzero
    simp only [resumeSession, resumeVoice]
    simp [ha, hmid, hmain, hclos, hzero, playAudio]

/-- Witness for C3 amended, at the started-then-paused concrete state. -/
theorem leadIn_pause_resume_amended_witness :
    (pauseSession (startSession readyState)).phase ≠ SessionPhase.playing ∧
    fireLeadInTimeout (pauseSession (startSession readyState))
      = pauseSession (startSession readyState) ∧
    (pauseSession (startSession readyState)).intro
      = some { currentTime := 0, duration := 12, paused := true, volume := 4 / 5 } ∧
    isMidPlayback { currentTime := 0, duration := 12, paused := true, volume := (4 / 5 : ℚ) }
      = false ∧
    (resumeSession (pauseSession (startSession readyState))).intro.map AudioEl.paused
      = some false := by
  refine ⟨by decide, leadIn_pause_resume_amended.2.1 _ (by decide), rfl, by decide, ?_⟩
  exact leadIn_pause_resume_amended.2.2 (pauseSession (startSession readyState))
    { currentTime := 0, duration := 12, paused := true, volume := 4 / 5 }
    rfl (by decide) (by decide) (by decide) (by decide)

end Stillcaster
